import Mathlib

/-!
Shallow embedding of two drivers of the embassy repository:

* `src/embassy-nrf/src/timerv2.rs` — nRF timer/counter driver (`Timer<MODE>`,
  `Cc` capture/compare channel handles).  Hardware registers of one TIMER
  instance are modelled by `TimerV2.TimerState`; every register write performed
  by the driver is additionally recorded in a write log (most recent first), so
  that temporal claims about write ordering can be stated.
* `src/embassy-stm32/src/flash/f0.rs` — STM32F0 flash programming engine.
  The flash controller's CR/SR/AR registers are modelled by `F0.FlashState`;
  the busy-polling loop `blocking_wait_ready` is driven by an explicit list of
  status-register values observed at each poll iteration (the hardware oracle),
  so a run that never observes `bsy = false` is `none`.
-/

namespace TimerV2

/-- The registers of one nRF `timer0::RegisterBlock` touched by `timerv2.rs`,
identified by name (and element index for the register arrays).  Used both for
the driver's write log and for the identity carried by exported PPI task
handles. -/
inductive NReg
  | tasksStart
  | tasksStop
  | tasksCount
  | tasksClear
  | tasksShutdown
  | tasksCapture (n : Nat)
  | eventsCompare (n : Nat)
  | shorts
  | intenclr
  | mode
  | bitmode
  | prescaler
  | cc (n : Nat)
  deriving DecidableEq, Repr

/-- `pub enum Frequency` — ten prescaler selectors, discriminants 0–9. -/
inductive Frequency
  | F16MHz | F8MHz | F4MHz | F2MHz | F1MHz
  | F500kHz | F250kHz | F125kHz | F62500Hz | F31250Hz
  deriving DecidableEq, Repr

/-- The `u8` discriminant of a `Frequency` (`frequency as u8` in the source). -/
def Frequency.val : Frequency → Nat
  | .F16MHz => 0
  | .F8MHz => 1
  | .F4MHz => 2
  | .F2MHz => 3
  | .F1MHz => 4
  | .F500kHz => 5
  | .F250kHz => 6
  | .F125kHz => 7
  | .F62500Hz => 8
  | .F31250Hz => 9

/-- `pub enum Bitmode` with its source discriminants (`B8 = 1, B16 = 0,
B24 = 2, B32 = 3`), which coincide with the hardware BITMODE field encodings
written by `set_bitmode`. -/
inductive Bitmode
  | B8 | B16 | B24 | B32
  deriving DecidableEq, Repr

/-- Hardware BITMODE field value written for each variant
(`_08bit = 1, _16bit = 0, _24bit = 2, _32bit = 3`). -/
def Bitmode.val : Bitmode → Nat
  | .B8 => 1
  | .B16 => 0
  | .B24 => 2
  | .B32 => 3

/-- State of one TIMER instance's register block, as far as `timerv2.rs`
touches it.  `ccv n` is the 32-bit value of `CC[n]`; `shorts` is the shared
shortcut bitmap; `inten` is the set of currently enabled interrupt sources
(a write of mask `m` to INTENCLR would clear the bits of `m` in it — the
driver never performs such a write); `counter` is the timer's internal
counter, which the CAPTURE task copies into `CC[n]`.  `log` records the
registers written by the driver, most recent first. -/
structure TimerState where
  shorts : Nat
  ccv : Nat → Nat
  counter : Nat
  inten : Nat
  bitmodeReg : Nat
  prescalerReg : Nat
  modeReg : Nat
  log : List NReg

/-- All bits of a `u32` set: `!0u32`.  The Rust expression `!(1 << n)` on a
`u32` is `U32_MAX ^^^ (1 <<< n)` for `n < 32`. -/
def U32_MAX : Nat := 2 ^ 32 - 1

/-- `Timer::start`: `tasks_start.write(1)` — fire-and-forget trigger. -/
def Timer.start (s : TimerState) : TimerState :=
  { s with log := NReg.tasksStart :: s.log }

/-- `Timer::stop`: `tasks_stop.write(1)` — fire-and-forget trigger. -/
def Timer.stop (s : TimerState) : TimerState :=
  { s with log := NReg.tasksStop :: s.log }

/-- `Timer::clear`: `tasks_clear.write(1)`; the hardware CLEAR task resets the
internal counter to 0. -/
def Timer.clear (s : TimerState) : TimerState :=
  { s with counter := 0, log := NReg.tasksClear :: s.log }

/-- `Timer::set_bitmode`: stops the timer, then writes the BITMODE register. -/
def Timer.set_bitmode (b : Bitmode) (s : TimerState) : TimerState :=
  let s := Timer.stop s
  { s with bitmodeReg := b.val, log := NReg.bitmode :: s.log }

/-- `Timer::with_bitmode` delegates its register effects to `set_bitmode`. -/
def Timer.with_bitmode (b : Bitmode) (s : TimerState) : TimerState :=
  Timer.set_bitmode b s

/-- `Timer<TimerType>::set_frequency`: stops the timer, then writes the
PRESCALER register with the frequency's discriminant. -/
def Timer.set_frequency (f : Frequency) (s : TimerState) : TimerState :=
  let s := Timer.stop s
  { s with prescalerReg := f.val, log := NReg.prescaler :: s.log }

/-- `Timer<NotConfigured>::into_counter`: writes MODE = low-power counter
(hardware encoding 2). -/
def Timer.into_counter (s : TimerState) : TimerState :=
  { s with modeReg := 2, log := NReg.mode :: s.log }

/-- `Timer<NotConfigured>::into_timer`: writes MODE = timer (encoding 0). -/
def Timer.into_timer (s : TimerState) : TimerState :=
  { s with modeReg := 0, log := NReg.mode :: s.log }

/-- `pub struct Cc { n: usize }` — a handle to CC register `n`. -/
structure Cc where
  n : Nat
  deriving DecidableEq, Repr

/-- `Timer::cc(n)`: panics for `n >= 4` (modelled as `none`), otherwise
returns the handle `Cc { n }`. -/
def Timer.cc (n : Nat) : Option Cc :=
  if n ≥ 4 then none else some ⟨n⟩

/-- `Cc::read`: the current value of `CC[n]`. -/
def Cc.read (c : Cc) (s : TimerState) : Nat :=
  s.ccv c.n

/-- `Cc::write`: stores `value` into `CC[n]` (a 32-bit register). -/
def Cc.write (c : Cc) (v : Nat) (s : TimerState) : TimerState :=
  { s with ccv := Function.update s.ccv c.n (v % 2 ^ 32), log := NReg.cc c.n :: s.log }

/-- `Cc::capture`: writes `tasks_capture[n]` — the hardware CAPTURE task
copies the current counter into `CC[n]` — then reads `CC[n]` back.  Returns
the new state and the value read. -/
def Cc.capture (c : Cc) (s : TimerState) : TimerState × Nat :=
  let s := { s with ccv := Function.update s.ccv c.n (s.counter % 2 ^ 32),
                    log := NReg.tasksCapture c.n :: s.log }
  (s, Cc.read c s)

/-- `Cc::short_compare_clear`: read-modify-write of SHORTS, or-ing in bit
`n` (`r.bits() | (1 << self.n)`). -/
def Cc.short_compare_clear (c : Cc) (s : TimerState) : TimerState :=
  { s with shorts := s.shorts ||| (1 <<< c.n), log := NReg.shorts :: s.log }

/-- `Cc::unshort_compare_clear`: read-modify-write of SHORTS, and-ing with
the `u32` complement of bit `n` (`r.bits() & !(1 << self.n)`). -/
def Cc.unshort_compare_clear (c : Cc) (s : TimerState) : TimerState :=
  { s with shorts := s.shorts &&& (U32_MAX ^^^ (1 <<< c.n)), log := NReg.shorts :: s.log }

/-- `Cc::short_compare_stop`: or-in bit `8 + n` of SHORTS. -/
def Cc.short_compare_stop (c : Cc) (s : TimerState) : TimerState :=
  { s with shorts := s.shorts ||| (1 <<< (8 + c.n)), log := NReg.shorts :: s.log }

/-- `Cc::unshort_compare_stop`: clear bit `8 + n` of SHORTS. -/
def Cc.unshort_compare_stop (c : Cc) (s : TimerState) : TimerState :=
  { s with shorts := s.shorts &&& (U32_MAX ^^^ (1 <<< (8 + c.n))), log := NReg.shorts :: s.log }

/-- Disposal of a `Cc` handle.  The source declares no `Drop` implementation
for `Cc` (and `Cc`'s only field is a `usize`), so dropping a handle runs no
code and performs no register access. -/
def Cc.dispose (_c : Cc) (s : TimerState) : TimerState :=
  s

/-- `get_timer()`: stop, clear, then for each channel `n` in `0..4`:
`unshort_compare_clear`, `unshort_compare_stop`, `write(0)` — in source
order. -/
def get_timer (s : TimerState) : TimerState :=
  let s := Timer.stop s
  let s := Timer.clear s
  let s := Cc.write ⟨0⟩ 0 (Cc.unshort_compare_stop ⟨0⟩ (Cc.unshort_compare_clear ⟨0⟩ s))
  let s := Cc.write ⟨1⟩ 0 (Cc.unshort_compare_stop ⟨1⟩ (Cc.unshort_compare_clear ⟨1⟩ s))
  let s := Cc.write ⟨2⟩ 0 (Cc.unshort_compare_stop ⟨2⟩ (Cc.unshort_compare_clear ⟨2⟩ s))
  let s := Cc.write ⟨3⟩ 0 (Cc.unshort_compare_stop ⟨3⟩ (Cc.unshort_compare_clear ⟨3⟩ s))
  s

/-- Modelled from the spec: a PPI `Task` handle (`crate::ppi::Task`, outside
this module) is an opaque reference to a trigger register — "return an opaque
handle referencing the corresponding trigger register".  `Task::from_reg`
stores the register's address, so a handle is identified by which register it
references. -/
structure Task where
  reg : NReg
  deriving DecidableEq, Repr

/-- `Task::from_reg`. -/
def Task.from_reg (r : NReg) : Task :=
  ⟨r⟩

/-- `Timer::task_start`: `Task::from_reg(&regs().tasks_start)`. -/
def Timer.task_start : Task :=
  Task.from_reg NReg.tasksStart

/-- `Timer::task_stop`: the source passes `&self.regs().tasks_shutdown` to
`Task::from_reg`, so the returned handle references the SHUTDOWN trigger
register. -/
def Timer.task_stop : Task :=
  Task.from_reg NReg.tasksShutdown

/-- `Timer::task_clear`: `Task::from_reg(&regs().tasks_clear)`. -/
def Timer.task_clear : Task :=
  Task.from_reg NReg.tasksClear

/-- `Timer<CounterType>::task_count`: `Task::from_reg(&regs().tasks_count)`. -/
def Timer.task_count : Task :=
  Task.from_reg NReg.tasksCount

/-- `Cc::task_capture`: the source passes `&self.regs().tasks_capture` — the
whole four-element register array, not `tasks_capture[self.n]` — to
`Task::from_reg`.  The address of the array is the address of its element 0,
so the returned handle references `tasks_capture[0]` for every channel. -/
def Cc.task_capture (_c : Cc) : Task :=
  Task.from_reg (NReg.tasksCapture 0)

/-- A single public state-mutating call of the driver, for stating properties
of every execution trace. -/
inductive TOp
  | bind
  | start
  | stop
  | clear
  | setBitmode (b : Bitmode)
  | setFrequency (f : Frequency)
  | intoCounter
  | intoTimer
  | ccWrite (c : Cc) (v : Nat)
  | ccCapture (c : Cc)
  | shortCompareClear (c : Cc)
  | unshortCompareClear (c : Cc)
  | shortCompareStop (c : Cc)
  | unshortCompareStop (c : Cc)
  | ccDispose (c : Cc)

/-- The state transformer of one driver call. -/
def TOp.step : TOp → TimerState → TimerState
  | .bind, s => get_timer s
  | .start, s => Timer.start s
  | .stop, s => Timer.stop s
  | .clear, s => Timer.clear s
  | .setBitmode b, s => Timer.set_bitmode b s
  | .setFrequency f, s => Timer.set_frequency f s
  | .intoCounter, s => Timer.into_counter s
  | .intoTimer, s => Timer.into_timer s
  | .ccWrite c v, s => Cc.write c v s
  | .ccCapture c, s => (Cc.capture c s).1
  | .shortCompareClear c, s => Cc.short_compare_clear c s
  | .unshortCompareClear c, s => Cc.unshort_compare_clear c s
  | .shortCompareStop c, s => Cc.short_compare_stop c s
  | .unshortCompareStop c, s => Cc.unshort_compare_stop c s
  | .ccDispose c, s => Cc.dispose c s

/-- Run a sequence of driver calls, first call first. -/
def runOps (ops : List TOp) (s : TimerState) : TimerState :=
  ops.foldl (fun s op => op.step s) s

/-- A write log (most recent write first) in which every write to the
PRESCALER or BITMODE register is immediately preceded (in time, i.e.
immediately followed in the list) by a write to the STOP trigger. -/
def stopGuardsConfig : List NReg → Bool
  | [] => true
  | r :: rest =>
    (if r = NReg.prescaler ∨ r = NReg.bitmode then
      match rest with
      | [] => false
      | r2 :: _ => r2 = NReg.tasksStop
    else true) && stopGuardsConfig rest

end TimerV2

namespace F0

/-- `crate::flash::Error` — the classified flash failures surfaced by this
module (`Prog`, `Seq`, `Protected`). -/
inductive Error
  | Prog
  | Seq
  | Protected
  deriving DecidableEq, Repr

/-- The flash status register SR: busy, write-protect error, programming
error, end of operation.  The three non-busy flags are sticky,
write-1-to-clear. -/
structure Sr where
  bsy : Bool
  wrprt : Bool
  pgerr : Bool
  eop : Bool
  deriving DecidableEq, Repr

/-- The flash control register CR, restricted to the bits this module
touches: lock, program enable, page-erase enable, start. -/
structure Cr where
  lock : Bool
  pg : Bool
  per : Bool
  strt : Bool
  deriving DecidableEq, Repr

/-- State of the flash controller as this module observes and drives it:
the CR and SR registers, the address register AR, and a log of the half-word
stores performed on the flash memory itself (address, little-endian value),
oldest first. -/
structure FlashState where
  cr : Cr
  sr : Sr
  ar : Nat
  mem : List (Nat × Nat)
  deriving DecidableEq, Repr

/-- Hardware semantics of writing value `w` to SR: the sticky flags are
write-1-to-clear (a 1 bit clears the flag, a 0 bit leaves it), and `bsy` is
read-only. -/
def srWrite (sr w : Sr) : Sr :=
  { bsy := sr.bsy
    wrprt := sr.wrprt && !w.wrprt
    pgerr := sr.pgerr && !w.pgerr
    eop := sr.eop && !w.eop }

/-- `clear_all_err`: `sr().modify(...)` reads SR and writes the read value
back (the conditional `set_*(true)` calls set bits that are already set in
the read value, so they do not change the value written).  Writing each set
sticky flag back as 1 clears it. -/
def clear_all_err (sr : Sr) : Sr :=
  srWrite sr sr

/-- Hardware semantics of a full write to CR: all modelled bits take the
written value, except `lock`, which cannot be cleared by a plain register
write (only the key sequence unlocks), so writing 0 to it leaves it. -/
def crWrite (cr w : Cr) : Cr :=
  { lock := cr.lock || w.lock
    pg := w.pg
    per := w.per
    strt := w.strt }

/-- `begin_write`: asserts `WRITE_SIZE % 2 == 0` (a fatal contract check,
modelled as `none`; `writeSize` is the platform constant `WRITE_SIZE` from
the enclosing flash module), then `cr().write(|w| w.set_pg(true))`. -/
def begin_write (writeSize : Nat) (s : FlashState) : Option FlashState :=
  if writeSize % 2 = 0 then
    some { s with cr := crWrite s.cr ⟨false, true, false, false⟩ }
  else
    none

/-- `end_write`: `cr().write(|w| w.set_pg(false))`. -/
def end_write (s : FlashState) : FlashState :=
  { s with cr := crWrite s.cr ⟨false, false, false, false⟩ }

/-- `blocking_wait_ready`: spin reading SR until `bsy` is clear, then
classify — write-protect flag gives `Protected`, else programming-error flag
gives `Seq`, else success.  `srs` is the sequence of SR values the hardware
presents at consecutive reads; a run that never observes `bsy = false` is
`none` (the loop does not terminate).  On termination the result is returned
together with the observed SR value, which is the controller's (stable)
status register from that moment on. -/
def blocking_wait_ready : List Sr → Option (Except Error Unit × Sr)
  | [] => none
  | sr :: rest =>
    if sr.bsy then
      blocking_wait_ready rest
    else
      some
        (if sr.wrprt then Except.error Error.Protected
         else if sr.pgerr then Except.error Error.Seq
         else Except.ok (),
         sr)

/-- The half-word store loop of `blocking_write`: for each 2-byte chunk of
`buf` in address order, store it as a little-endian half-word at the current
address and advance by the chunk length.  A trailing 1-byte chunk makes the
source's `chunk.try_into().unwrap()` panic, modelled as `none`. -/
def writeChunks (address : Nat) : List Nat → Option (List (Nat × Nat))
  | [] => some []
  | [_] => none
  | b0 :: b1 :: rest =>
    match writeChunks (address + 2) rest with
    | none => none
    | some l => some ((address, (b0 + 256 * b1) % 2 ^ 16) :: l)

/-- `blocking_write`: performs the half-word store loop (with a fence after
each store, irrelevant to the sequential model), then `blocking_wait_ready`.
`none` covers the two ways the source fails to return: the unreachable
odd-chunk panic and a poll that never sees `bsy` clear. -/
def blocking_write (start_address : Nat) (buf : List Nat) (srs : List Sr)
    (s : FlashState) : Option (Except Error Unit × FlashState) :=
  match writeChunks start_address buf with
  | none => none
  | some stores =>
    match blocking_wait_ready srs with
    | none => none
    | some (ret, srObs) =>
      some (ret, { s with mem := s.mem ++ stores, sr := srObs })

/-- `FlashSector` (declared in the enclosing flash module): a sector
descriptor; only its start address is used here. -/
structure FlashSector where
  start : Nat
  size : Nat
  deriving DecidableEq, Repr

/-- `blocking_erase_sector`: set PER, write the sector start to AR, set STRT,
poll until ready; if EOP is not set afterwards the result becomes
`Err(Prog)`, otherwise EOP is cleared by writing 1 to it; then PER is
cleared, `clear_all_err` runs, and the result is returned (`ret` on error,
`Ok(())` otherwise). -/
def blocking_erase_sector (sector : FlashSector) (srs : List Sr)
    (s : FlashState) : Option (Except Error Unit × FlashState) :=
  let s := { s with cr := { s.cr with per := true } }
  let s := { s with ar := sector.start }
  let s := { s with cr := { s.cr with strt := true } }
  match blocking_wait_ready srs with
  | none => none
  | some (ret, srObs) =>
    let s := { s with sr := srObs }
    let (ret, s) :=
      if !s.sr.eop then
        (Except.error Error.Prog, s)
      else
        (ret, { s with sr := srWrite s.sr ⟨false, false, false, true⟩ })
    let s := { s with cr := { s.cr with per := false } }
    let s := { s with sr := clear_all_err s.sr }
    match ret with
    | Except.error e => some (Except.error e, s)
    | Except.ok _ => some (Except.ok (), s)

/-- Modelled from the spec: the flash front-end that calls this module (not
under `src/`) pairs `begin_write` and `end_write` around `blocking_write`,
calling `end_write` regardless of the outcome ("callers must always pair
`begin_write` with `end_write`"; "deasserts program-enable — must be called
by the driver regardless of step 5's outcome"). -/
def write_operation (writeSize : Nat) (start_address : Nat) (buf : List Nat)
    (srs : List Sr) (s : FlashState) : Option (Except Error Unit × FlashState) :=
  match begin_write writeSize s with
  | none => none
  | some s1 =>
    match blocking_write start_address buf srs s1 with
    | none => none
    | some (ret, s2) => some (ret, end_write s2)

end F0

/-- A concrete timer state with the channel-0 compare interrupt enabled
(bit 16 of the interrupt-enable set), used to evaluate disposal. -/
def intenSetState : TimerV2.TimerState :=
  { shorts := 0, ccv := fun _ => 0, counter := 0, inten := 2 ^ 16,
    bitmodeReg := 0, prescalerReg := 0, modeReg := 0, log := [] }

/-- A concrete timer state with everything dirty, used as a witness input. -/
def dirtyTimerState : TimerV2.TimerState :=
  { shorts := 2 ^ 32 - 1, ccv := fun _ => 17, counter := 7, inten := 0,
    bitmodeReg := 3, prescalerReg := 9, modeReg := 2, log := [] }

/-- A concrete SR observation sequence: one busy poll, then ready with the
write-protect flag and end-of-operation flag set. -/
def srsProtected : List F0.Sr :=
  [⟨true, false, false, false⟩, ⟨false, true, false, true⟩]

/-- A concrete SR observation sequence: one busy poll, then ready with no
flag set (so in an erase the end-of-operation check fails). -/
def srsNoEop : List F0.Sr :=
  [⟨true, false, false, false⟩, ⟨false, false, false, false⟩]

/-- A concrete flash controller state (locked clear, nothing pending). -/
def flashState0 : F0.FlashState :=
  { cr := ⟨false, false, false, false⟩, sr := ⟨false, false, false, false⟩,
    ar := 0, mem := [] }

/-- `1 <<< n = 2 ^ n` on `Nat`. -/
theorem one_shiftLeft_eq_pow (n : Nat) : 1 <<< n = 2 ^ n := by
  simp [Nat.shiftLeft_eq]

/-- Or-ing in bit `n` sets bit `n`. -/
theorem or_bit_set (x n : Nat) : (x ||| (1 <<< n)).testBit n = true := by
  simp [Nat.testBit_or, one_shiftLeft_eq_pow, Nat.testBit_two_pow_self]

/-- Or-ing in bit `n` leaves every other bit unchanged. -/
theorem or_bit_frame (x n i : Nat) (h : i ≠ n) :
    (x ||| (1 <<< n)).testBit i = x.testBit i := by
  simp [Nat.testBit_or, one_shiftLeft_eq_pow,
    Nat.testBit_two_pow_of_ne (Ne.symm h)]

/-- Bit `k` of the all-ones `u32` mask is set exactly for `k < 32`. -/
theorem U32_MAX_testBit (k : Nat) :
    TimerV2.U32_MAX.testBit k = decide (k < 32) := by
  rw [TimerV2.U32_MAX]
  exact Nat.testBit_two_pow_sub_one 32 k

/-- And-ing with the `u32` complement of bit `n` clears bit `n`. -/
theorem andmask_bit_clear (x n : Nat) (hn : n < 32) :
    (x &&& (TimerV2.U32_MAX ^^^ (1 <<< n))).testBit n = false := by
  simp [Nat.testBit_and, Nat.testBit_xor, U32_MAX_testBit, one_shiftLeft_eq_pow,
    Nat.testBit_two_pow_self, hn]

/-- And-ing a 32-bit value with the `u32` complement of bit `n` leaves every
other bit unchanged. -/
theorem andmask_bit_frame (x n i : Nat) (hx : x < 2 ^ 32)
    (h : i ≠ n) :
    (x &&& (TimerV2.U32_MAX ^^^ (1 <<< n))).testBit i = x.testBit i := by
  by_cases hi : i < 32
  · simp [Nat.testBit_and, Nat.testBit_xor, U32_MAX_testBit, one_shiftLeft_eq_pow,
      Nat.testBit_two_pow_of_ne (Ne.symm h), hi]
  · have hxi : x.testBit i = false :=
      Nat.testBit_lt_two_pow
        (lt_of_lt_of_le hx (Nat.pow_le_pow_right (by norm_num) (by omega)))
    simp [Nat.testBit_and, hxi]

/-- Characterization of a terminating run of `blocking_wait_ready`: the
observed SR has `bsy` clear and the result is the wrprt-then-pgerr
classification of that SR. -/
theorem wait_ready_characterization (srs : List F0.Sr)
    (r : Except F0.Error Unit) (sr : F0.Sr)
    (h : F0.blocking_wait_ready srs = some (r, sr)) :
    sr.bsy = false
    ∧ r = (if sr.wrprt then Except.error F0.Error.Protected
           else if sr.pgerr then Except.error F0.Error.Seq
           else Except.ok ()) := by
  induction srs with
  | nil => simp [F0.blocking_wait_ready] at h
  | cons a rest ih =>
    rw [F0.blocking_wait_ready] at h
    by_cases hb : a.bsy
    · rw [if_pos hb] at h
      exact ih h
    · rw [if_neg hb] at h
      simp only [Option.some.injEq, Prod.mk.injEq] at h
      obtain ⟨h1, h2⟩ := h
      subst h2
      exact ⟨Bool.eq_false_iff.mpr hb, h1.symm⟩

/-- C2: for every terminating run of the completion poll
(`blocking_wait_ready`), at the moment the busy flag is observed clear it
returns `Protected` if the write-protect flag is set, else `Seq`
("SequenceError") if the program-error flag is set, else success — exactly
this classification, in exactly this priority order. -/
theorem wait_ready_classifies_in_priority_order (srs : List F0.Sr)
    (r : Except F0.Error Unit) (sr : F0.Sr)
    (h : F0.blocking_wait_ready srs = some (r, sr)) :
    sr.bsy = false
    ∧ r = (if sr.wrprt then Except.error F0.Error.Protected
           else if sr.pgerr then Except.error F0.Error.Seq
           else Except.ok ()) :=
  wait_ready_characterization srs r sr h

/-- Witness for C2 at a concrete poll sequence: busy once, then ready with
both write-protect and program-error set — the result is `Protected`. -/
theorem wait_ready_classifies_witness :
    (⟨false, true, true, false⟩ : F0.Sr).bsy = false
    ∧ Except.error F0.Error.Protected =
        (if (⟨false, true, true, false⟩ : F0.Sr).wrprt then
          Except.error F0.Error.Protected
         else if (⟨false, true, true, false⟩ : F0.Sr).pgerr then
          Except.error F0.Error.Seq
         else Except.ok ()) :=
  wait_ready_classifies_in_priority_order
    [⟨true, false, false, false⟩, ⟨false, true, true, false⟩]
    (Except.error F0.Error.Protected) ⟨false, true, true, false⟩ rfl

/-- C3: the exported stop-task handle should reference the STOP trigger
register — the register written by `stop()`.  In the code, `task_stop`
references the SHUTDOWN trigger register instead, which is a different
register from the one `stop()` writes. -/
theorem task_stop_references_shutdown (s : TimerV2.TimerState) :
    TimerV2.Timer.task_stop.reg = TimerV2.NReg.tasksShutdown
    ∧ (TimerV2.Timer.stop s).log = TimerV2.NReg.tasksStop :: s.log
    ∧ TimerV2.Timer.task_stop.reg ≠ TimerV2.NReg.tasksStop :=
  ⟨rfl, rfl, by decide⟩

/-- C4: channel `n`'s exported capture-task handle should reference
`tasks_capture[n]` — the register written by that handle's `capture()`.  In
the code, `task_capture` passes the whole `tasks_capture` array (whose
address is element 0's address), so channel 1's handle references
`tasks_capture[0]`, not the `tasks_capture[1]` register that its `capture()`
writes. -/
theorem task_capture_references_element_zero (s : TimerV2.TimerState) :
    (TimerV2.Cc.task_capture ⟨1⟩).reg = TimerV2.NReg.tasksCapture 0
    ∧ (TimerV2.Cc.capture ⟨1⟩ s).1.log = TimerV2.NReg.tasksCapture 1 :: s.log
    ∧ (TimerV2.Cc.task_capture ⟨1⟩).reg ≠ TimerV2.NReg.tasksCapture 1 :=
  ⟨rfl, rfl, by decide⟩

/-- C5 counterexample: the claim says disposal of the channel-0 handle
clears bit 16 of the interrupt-enable state, i.e. leaves it `false`.  In a
state where channel 0's compare interrupt is enabled (bit 16 set), disposal
leaves the bit set — `Cc` has no `Drop` implementation, so disposal runs no
code. -/
theorem dispose_leaves_inten_bit_set :
    intenSetState.inten.testBit 16 = true
    ∧ (TimerV2.Cc.dispose ⟨0⟩ intenSetState).inten.testBit 16 = true := by
  exact ⟨by decide, by decide⟩

/-- C5 amended: disposal of a CC channel handle performs no register access
at all — the `Cc` type has no `Drop` implementation, so the channel's
compare-interrupt-enable bit (and every other bit) is left unchanged. -/
theorem dispose_is_noop (c : TimerV2.Cc) (s : TimerV2.TimerState) :
    TimerV2.Cc.dispose c s = s :=
  rfl

/-- If bit `i` of `x` is clear, it is clear in `x &&& y` too. -/
theorem testBit_and_left_false (x y i : Nat) (h : x.testBit i = false) :
    (x &&& y).testBit i = false := by
  simp [Nat.testBit_and, h]

/-- The SHORTS value produced by `get_timer`: the incoming value and-masked
with the complements of bits 0, 8, 1, 9, 2, 10, 3, 11, in application
order. -/
theorem get_timer_shorts_eq (s : TimerV2.TimerState) :
    (TimerV2.get_timer s).shorts =
      s.shorts &&& (TimerV2.U32_MAX ^^^ (1 <<< 0)) &&& (TimerV2.U32_MAX ^^^ (1 <<< 8))
        &&& (TimerV2.U32_MAX ^^^ (1 <<< 1)) &&& (TimerV2.U32_MAX ^^^ (1 <<< 9))
        &&& (TimerV2.U32_MAX ^^^ (1 <<< 2)) &&& (TimerV2.U32_MAX ^^^ (1 <<< 10))
        &&& (TimerV2.U32_MAX ^^^ (1 <<< 3)) &&& (TimerV2.U32_MAX ^^^ (1 <<< 11)) :=
  rfl

/-- The CC values produced by `get_timer`: channels 0–3 overwritten with 0. -/
theorem get_timer_ccv_eq (s : TimerV2.TimerState) :
    (TimerV2.get_timer s).ccv =
      Function.update (Function.update (Function.update
        (Function.update s.ccv 0 0) 1 0) 2 0) 3 0 :=
  rfl

/-- The write log produced by `get_timer` (most recent first). -/
theorem get_timer_log_eq (s : TimerV2.TimerState) :
    (TimerV2.get_timer s).log =
      TimerV2.NReg.cc 3 :: TimerV2.NReg.shorts :: TimerV2.NReg.shorts ::
      TimerV2.NReg.cc 2 :: TimerV2.NReg.shorts :: TimerV2.NReg.shorts ::
      TimerV2.NReg.cc 1 :: TimerV2.NReg.shorts :: TimerV2.NReg.shorts ::
      TimerV2.NReg.cc 0 :: TimerV2.NReg.shorts :: TimerV2.NReg.shorts ::
      TimerV2.NReg.tasksClear :: TimerV2.NReg.tasksStop :: s.log :=
  rfl

/-- C7: after `get_timer`, each of the four CC channels holds 0, its
compare→clear shortcut bit (bit `n` of SHORTS) is disabled and its
compare→stop shortcut bit (bit `8+n`) is disabled; and the STOP and CLEAR
tasks were triggered during construction. -/
theorem get_timer_initializes_channels (s : TimerV2.TimerState) (n : Nat)
    (hn : n < 4) :
    (TimerV2.get_timer s).ccv n = 0
    ∧ (TimerV2.get_timer s).shorts.testBit n = false
    ∧ (TimerV2.get_timer s).shorts.testBit (8 + n) = false
    ∧ TimerV2.NReg.tasksStop ∈ (TimerV2.get_timer s).log
    ∧ TimerV2.NReg.tasksClear ∈ (TimerV2.get_timer s).log := by
  refine ⟨?_, ?_, ?_, ?_, ?_⟩
  · rw [get_timer_ccv_eq]
    interval_cases n <;> simp [Function.update]
  · rw [get_timer_shorts_eq]
    interval_cases n <;>
      (repeat
        first
          | exact andmask_bit_clear _ _ (by norm_num)
          | apply testBit_and_left_false)
  · rw [get_timer_shorts_eq]
    interval_cases n <;>
      (repeat
        first
          | exact andmask_bit_clear _ _ (by norm_num)
          | apply testBit_and_left_false)
  · rw [get_timer_log_eq]; simp
  · rw [get_timer_log_eq]; simp

/-- Witness for C7 at channel 1 of a concrete dirty state. -/
theorem get_timer_initializes_witness :
    (TimerV2.get_timer dirtyTimerState).ccv 1 = 0
    ∧ (TimerV2.get_timer dirtyTimerState).shorts.testBit 1 = false
    ∧ (TimerV2.get_timer dirtyTimerState).shorts.testBit (8 + 1) = false
    ∧ TimerV2.NReg.tasksStop ∈ (TimerV2.get_timer dirtyTimerState).log
    ∧ TimerV2.NReg.tasksClear ∈ (TimerV2.get_timer dirtyTimerState).log :=
  get_timer_initializes_channels dirtyTimerState 1 (by decide)

/-- C8: in every execution trace of the driver (any sequence of public
state-mutating calls run from a state whose write log already satisfies the
guard), every write to the PRESCALER or BITMODE register is immediately
preceded by a STOP trigger: `set_frequency` and `set_bitmode` (hence
`with_bitmode`) each issue a stop directly before writing their
configuration register, and no other operation writes those registers. -/
theorem config_writes_follow_stop (ops : List TimerV2.TOp)
    (s : TimerV2.TimerState)
    (h : TimerV2.stopGuardsConfig s.log = true) :
    TimerV2.stopGuardsConfig (TimerV2.runOps ops s).log = true := by
  induction ops generalizing s with
  | nil => simpa [TimerV2.runOps] using h
  | cons op rest ih =>
    have hstep : TimerV2.stopGuardsConfig (op.step s).log = true := by
      cases op <;>
        simp [TimerV2.TOp.step, TimerV2.get_timer, TimerV2.Timer.start,
          TimerV2.Timer.stop, TimerV2.Timer.clear, TimerV2.Timer.set_bitmode,
          TimerV2.Timer.set_frequency, TimerV2.Timer.into_counter,
          TimerV2.Timer.into_timer, TimerV2.Cc.write, TimerV2.Cc.capture,
          TimerV2.Cc.short_compare_clear, TimerV2.Cc.unshort_compare_clear,
          TimerV2.Cc.short_compare_stop, TimerV2.Cc.unshort_compare_stop,
          TimerV2.Cc.dispose, TimerV2.stopGuardsConfig, h]
    have hrun : TimerV2.runOps (op :: rest) s = TimerV2.runOps rest (op.step s) :=
      rfl
    rw [hrun]
    exact ih (op.step s) hstep

/-- Witness for C8 on a concrete trace: bind, set frequency, set bit width,
start — run from a state with an empty log. -/
theorem config_writes_follow_stop_witness :
    TimerV2.stopGuardsConfig
      (TimerV2.runOps
        [TimerV2.TOp.bind,
         TimerV2.TOp.setFrequency TimerV2.Frequency.F31250Hz,
         TimerV2.TOp.setBitmode TimerV2.Bitmode.B32,
         TimerV2.TOp.start]
        dirtyTimerState).log = true :=
  config_writes_follow_stop
    [TimerV2.TOp.bind,
     TimerV2.TOp.setFrequency TimerV2.Frequency.F31250Hz,
     TimerV2.TOp.setBitmode TimerV2.Bitmode.B32,
     TimerV2.TOp.start]
    dirtyTimerState rfl

/-- C9: for a channel handle with index `n < 4` and any prior 32-bit SHORTS
value, enabling/disabling the compare→clear shortcut sets/clears exactly bit
`n`, enabling/disabling the compare→stop shortcut sets/clears exactly bit
`8+n`, and all other bits of SHORTS are unchanged by these four
operations. -/
theorem shortcut_ops_touch_only_own_bits (c : TimerV2.Cc)
    (s : TimerV2.TimerState) (i : Nat) (hn : c.n < 4)
    (hs : s.shorts < 2 ^ 32) :
    ((TimerV2.Cc.short_compare_clear c s).shorts.testBit c.n = true
      ∧ (TimerV2.Cc.unshort_compare_clear c s).shorts.testBit c.n = false
      ∧ (TimerV2.Cc.short_compare_stop c s).shorts.testBit (8 + c.n) = true
      ∧ (TimerV2.Cc.unshort_compare_stop c s).shorts.testBit (8 + c.n) = false)
    ∧ (i ≠ c.n →
        ((TimerV2.Cc.short_compare_clear c s).shorts.testBit i = s.shorts.testBit i
          ∧ (TimerV2.Cc.unshort_compare_clear c s).shorts.testBit i = s.shorts.testBit i))
    ∧ (i ≠ 8 + c.n →
        ((TimerV2.Cc.short_compare_stop c s).shorts.testBit i = s.shorts.testBit i
          ∧ (TimerV2.Cc.unshort_compare_stop c s).shorts.testBit i = s.shorts.testBit i)) := by
  refine ⟨⟨?_, ?_, ?_, ?_⟩, fun hi => ⟨?_, ?_⟩, fun hi => ⟨?_, ?_⟩⟩
  · exact or_bit_set s.shorts c.n
  · exact andmask_bit_clear s.shorts c.n (by omega)
  · exact or_bit_set s.shorts (8 + c.n)
  · exact andmask_bit_clear s.shorts (8 + c.n) (by omega)
  · exact or_bit_frame s.shorts c.n i hi
  · exact andmask_bit_frame s.shorts c.n i hs hi
  · exact or_bit_frame s.shorts (8 + c.n) i hi
  · exact andmask_bit_frame s.shorts (8 + c.n) i hs hi

/-- Witness for C9 at channel 2, bit 5, on a concrete all-ones SHORTS. -/
theorem shortcut_ops_witness :
    ((TimerV2.Cc.short_compare_clear ⟨2⟩ dirtyTimerState).shorts.testBit (TimerV2.Cc.mk 2).n = true
      ∧ (TimerV2.Cc.unshort_compare_clear ⟨2⟩ dirtyTimerState).shorts.testBit (TimerV2.Cc.mk 2).n = false
      ∧ (TimerV2.Cc.short_compare_stop ⟨2⟩ dirtyTimerState).shorts.testBit (8 + (TimerV2.Cc.mk 2).n) = true
      ∧ (TimerV2.Cc.unshort_compare_stop ⟨2⟩ dirtyTimerState).shorts.testBit (8 + (TimerV2.Cc.mk 2).n) = false)
    ∧ (5 ≠ (TimerV2.Cc.mk 2).n →
        ((TimerV2.Cc.short_compare_clear ⟨2⟩ dirtyTimerState).shorts.testBit 5 = dirtyTimerState.shorts.testBit 5
          ∧ (TimerV2.Cc.unshort_compare_clear ⟨2⟩ dirtyTimerState).shorts.testBit 5 = dirtyTimerState.shorts.testBit 5))
    ∧ (5 ≠ 8 + (TimerV2.Cc.mk 2).n →
        ((TimerV2.Cc.short_compare_stop ⟨2⟩ dirtyTimerState).shorts.testBit 5 = dirtyTimerState.shorts.testBit 5
          ∧ (TimerV2.Cc.unshort_compare_stop ⟨2⟩ dirtyTimerState).shorts.testBit 5 = dirtyTimerState.shorts.testBit 5)) :=
  shortcut_ops_touch_only_own_bits ⟨2⟩ dirtyTimerState 5 (by decide) (by norm_num [dirtyTimerState])

/-- C1: for every terminating run of `blocking_erase_sector` — if the
end-of-operation flag is not set after polling completes, the result is the
`Prog` failure, otherwise the end-of-operation flag is cleared; and in all
cases the erase-enable bit `per` is deasserted and the three sticky flags
(program-error, write-protect, end-of-operation) are all clear in the state
in which the result is returned. -/
theorem erase_prog_check_and_cleanup (sector : F0.FlashSector)
    (srs : List F0.Sr) (s s' : F0.FlashState) (r ret : Except F0.Error Unit)
    (srObs : F0.Sr)
    (hw : F0.blocking_wait_ready srs = some (ret, srObs))
    (h : F0.blocking_erase_sector sector srs s = some (r, s')) :
    (srObs.eop = false → r = Except.error F0.Error.Prog)
    ∧ s'.cr.per = false
    ∧ s'.sr.pgerr = false ∧ s'.sr.wrprt = false ∧ s'.sr.eop = false := by
  simp only [F0.blocking_erase_sector, hw] at h
  cases heop : srObs.eop with
  | false =>
    simp only [heop, Bool.not_false, if_true] at h
    simp [F0.clear_all_err, F0.srWrite] at h
    obtain ⟨h1, h2⟩ := h
    subst h1
    subst h2
    simp
  | true =>
    simp only [heop, Bool.not_true] at h
    cases ret with
    | error e =>
      simp [F0.clear_all_err, F0.srWrite] at h
      obtain ⟨h1, h2⟩ := h
      subst h1
      subst h2
      simp
    | ok u =>
      simp [F0.clear_all_err, F0.srWrite] at h
      obtain ⟨h1, h2⟩ := h
      subst h1
      subst h2
      simp

/-- Witness for C1: a concrete erase whose poll ends with no flags set — the
result is `Prog` and the final state has `per` deasserted and all sticky
flags clear. -/
theorem erase_prog_check_witness :
    ((⟨false, false, false, false⟩ : F0.Sr).eop = false →
      (Except.error F0.Error.Prog : Except F0.Error Unit) = Except.error F0.Error.Prog)
    ∧ (F0.FlashState.mk ⟨false, false, false, true⟩ ⟨false, false, false, false⟩ 4096 []).cr.per = false
    ∧ (F0.FlashState.mk ⟨false, false, false, true⟩ ⟨false, false, false, false⟩ 4096 []).sr.pgerr = false
    ∧ (F0.FlashState.mk ⟨false, false, false, true⟩ ⟨false, false, false, false⟩ 4096 []).sr.wrprt = false
    ∧ (F0.FlashState.mk ⟨false, false, false, true⟩ ⟨false, false, false, false⟩ 4096 []).sr.eop = false :=
  erase_prog_check_and_cleanup ⟨4096, 1024⟩ srsNoEop flashState0
    (F0.FlashState.mk ⟨false, false, false, true⟩ ⟨false, false, false, false⟩ 4096 [])
    (Except.error F0.Error.Prog) (Except.ok ()) ⟨false, false, false, false⟩ rfl rfl

/-- C10: in `blocking_erase_sector` the end-of-operation check overwrites
the poll's classification — if the poll's observed SR has the
end-of-operation flag clear, the returned error is `Prog` whatever the poll
returned; and the erase can only return `Protected` or `Seq` when the
end-of-operation flag was set (in which case the poll's result is passed
through). -/
theorem erase_eop_check_overrides_poll_error (sector : F0.FlashSector)
    (srs : List F0.Sr) (s s' : F0.FlashState) (r ret : Except F0.Error Unit)
    (srObs : F0.Sr)
    (hw : F0.blocking_wait_ready srs = some (ret, srObs))
    (h : F0.blocking_erase_sector sector srs s = some (r, s')) :
    (srObs.eop = false → r = Except.error F0.Error.Prog)
    ∧ ((r = Except.error F0.Error.Protected ∨ r = Except.error F0.Error.Seq) →
        srObs.eop = true ∧ r = ret) := by
  simp only [F0.blocking_erase_sector, hw] at h
  cases heop : srObs.eop with
  | false =>
    simp only [heop, Bool.not_false, if_true] at h
    simp [F0.clear_all_err, F0.srWrite] at h
    obtain ⟨h1, h2⟩ := h
    subst h1
    subst h2
    simp
  | true =>
    simp only [heop, Bool.not_true] at h
    cases ret with
    | error e =>
      simp [F0.clear_all_err, F0.srWrite] at h
      obtain ⟨h1, h2⟩ := h
      subst h1
      subst h2
      simp
    | ok u =>
      simp [F0.clear_all_err, F0.srWrite] at h
      obtain ⟨h1, h2⟩ := h
      subst h1
      subst h2
      simp

/-- Witness for C10: a concrete erase whose poll observes the write-protect
and end-of-operation flags — the poll's `Protected` error is passed
through because the end-of-operation flag was set. -/
theorem erase_eop_override_witness :
    ((⟨false, true, false, true⟩ : F0.Sr).eop = false →
      (Except.error F0.Error.Protected : Except F0.Error Unit) = Except.error F0.Error.Prog)
    ∧ (((Except.error F0.Error.Protected : Except F0.Error Unit) = Except.error F0.Error.Protected
        ∨ (Except.error F0.Error.Protected : Except F0.Error Unit) = Except.error F0.Error.Seq) →
        (⟨false, true, false, true⟩ : F0.Sr).eop = true
        ∧ (Except.error F0.Error.Protected : Except F0.Error Unit) = Except.error F0.Error.Protected) :=
  erase_eop_check_overrides_poll_error ⟨4096, 1024⟩ srsProtected flashState0
    (F0.FlashState.mk ⟨false, false, false, true⟩ ⟨false, false, false, false⟩ 4096 [])
    (Except.error F0.Error.Protected) (Except.error F0.Error.Protected)
    ⟨false, true, false, true⟩ rfl rfl

/-- C6: a flash write operation whose completion poll observes the
write-protect flag returns the `Protected` error, and the program-enable
bit `pg` is deasserted in the final state regardless (the `begin_write` /
`end_write` pairing is modelled from the spec). -/
theorem write_on_protected_region (writeSize start_address : Nat)
    (buf : List Nat) (srs : List F0.Sr) (s s' : F0.FlashState)
    (r ret : Except F0.Error Unit) (srObs : F0.Sr)
    (hw : F0.blocking_wait_ready srs = some (ret, srObs))
    (hp : srObs.wrprt = true)
    (h : F0.write_operation writeSize start_address buf srs s = some (r, s')) :
    r = Except.error F0.Error.Protected ∧ s'.cr.pg = false := by
  have hcls := wait_ready_characterization srs ret srObs hw
  have hret : ret = Except.error F0.Error.Protected := by
    rw [hcls.2, if_pos hp]
  subst hret
  simp only [F0.write_operation, F0.begin_write, F0.blocking_write] at h
  by_cases hws : writeSize % 2 = 0
  · simp only [hws, if_true] at h
    cases hwc : F0.writeChunks start_address buf with
    | none => simp [hwc] at h
    | some stores =>
      simp only [hwc, hw] at h
      simp [F0.end_write, F0.crWrite] at h
      obtain ⟨h1, h2⟩ := h
      subst h1
      subst h2
      simp
  · simp [hws] at h

/-- Witness for C6: a two-byte write at a concrete address whose poll
observes the write-protect flag — result `Protected`, `pg` deasserted. -/
theorem write_on_protected_witness :
    (Except.error F0.Error.Protected : Except F0.Error Unit) = Except.error F0.Error.Protected
    ∧ (F0.FlashState.mk ⟨false, false, false, false⟩ ⟨false, true, false, true⟩ 0 [(8, 513)]).cr.pg = false :=
  write_on_protected_region 2 8 [1, 2] srsProtected flashState0
    (F0.FlashState.mk ⟨false, false, false, false⟩ ⟨false, true, false, true⟩ 0 [(8, 513)])
    (Except.error F0.Error.Protected) (Except.error F0.Error.Protected)
    ⟨false, true, false, true⟩ rfl rfl rfl
